import Mathlib

/-!
Verification of the regime-identification utilities of `src/utils/misc.py`.

Modelling conventions (shallow embedding):
* A pandas `Series` of floats is modelled as an association list
  `List (String × ℚ)` (index labels in order, exact rational values; floats
  are idealised as rationals).
* A missing entry / NaN placeholder is modelled as `none : Option _`.
* Python `round(x, n)` is modelled as exact round-half-to-even on the
  rational value (the binary floating-point representation is idealised
  away).
* Python `sorted(..., key=...)` is modelled by `List.insertionSort`, which
  is stable, hence agrees with Python's stable sort for every input.
* `print` side effects are modelled by returning the list of printed lines
  alongside the result (`identify_2_regimes_run`).
-/

/-- The rational `10 ** d`, for an integer `d` for an integer `d` (the scale factor
used by decimal rounding). -/
def pow10Q (d : ℤ) : ℚ :=
  if 0 ≤ d then ((10 : ℚ) ^ d.toNat) else 1 / (10 : ℚ) ^ (-d).toNat

/-- Round-half-to-even of a rational to an integer, the tie-breaking rule of
Python's built-in `round`. -/
def roundHalfEven (x : ℚ) : ℤ :=
  if x - ⌊x⌋ < 1 / 2 then ⌊x⌋
  else if 1 / 2 < x - ⌊x⌋ then ⌊x⌋ + 1
  else if ⌊x⌋ % 2 = 0 then ⌊x⌋ else ⌊x⌋ + 1

/-- Python `round(x, d)` on a rational: round to `d` decimal places,
half to even. -/
def roundQ (d : ℤ) (x : ℚ) : ℚ :=
  (roundHalfEven (x * pow10Q d) : ℚ) / pow10Q d

/-- The eight values derived inside `identify_2_regimes` after the `try`
block: the six looked-up parameters plus `p12 = 1 - p11` and
`p22 = 1 - p21`. -/
structure Derived where
  p11 : ℚ
  p21 : ℚ
  p12 : ℚ
  p22 : ℚ
  b1 : ℚ
  b2 : ℚ
  var1 : ℚ
  var2 : ℚ
deriving DecidableEq, Repr

/-- The result dictionary of `identify_2_regimes`: the `'bull'` and `'bear'`
entries, each a regime-descriptor dictionary. -/
structure RegimeResult where
  bull : List (String × ℚ)
  bear : List (String × ℚ)
deriving DecidableEq, Repr

/-- Sequential lookup of the six required parameters, in the order of the
`try` block of `identify_2_regimes`. -/
def getSix (params : List (String × ℚ)) : Option (ℚ × ℚ × ℚ × ℚ × ℚ × ℚ) :=
  match params.lookup "p[0->0]" with
  | none => none
  | some p11 =>
  match params.lookup "p[1->0]" with
  | none => none
  | some p21 =>
  match params.lookup "const[0]" with
  | none => none
  | some b1 =>
  match params.lookup "const[1]" with
  | none => none
  | some b2 =>
  match params.lookup "sigma2[0]" with
  | none => none
  | some var1 =>
  match params.lookup "sigma2[1]" with
  | none => none
  | some var2 => some (p11, p21, b1, b2, var1, var2)

/-- Derivation of `p12 = 1 - p11` and `p22 = 1 - p21`, as computed right after the `try`
block. -/
def deriveAll (p11 p21 b1 b2 var1 var2 : ℚ) : Derived :=
  { p11 := p11, p21 := p21, p12 := 1 - p11, p22 := 1 - p21,
    b1 := b1, b2 := b2, var1 := var1, var2 := var2 }

/-- The `if decimals is not None:` block: round all eight derived values, or
leave them untouched when rounding is disabled. -/
def roundDerived (decimals : Option ℤ) (d : Derived) : Derived :=
  match decimals with
  | none => d
  | some n =>
    { p11 := roundQ n d.p11, p21 := roundQ n d.p21,
      p12 := roundQ n d.p12, p22 := roundQ n d.p22,
      b1 := roundQ n d.b1, b2 := roundQ n d.b2,
      var1 := roundQ n d.var1, var2 := roundQ n d.var2 }

/-- The regime-descriptor dictionary `regime1` of `identify_2_regimes`. -/
def regime1Desc (d : Derived) : List (String × ℚ) :=
  [("beta0", d.b1), ("var", d.var1), ("p11", d.p11), ("p12", d.p12)]

/-- The regime-descriptor dictionary `regime2` of `identify_2_regimes`. -/
def regime2Desc (d : Derived) : List (String × ℚ) :=
  [("beta0", d.b2), ("var", d.var2), ("p22", d.p22), ("p21", d.p21)]

/-- The `if`/`elif`/`else` classification of `identify_2_regimes`, on the
(possibly rounded) derived values; `none` models the `"Mixed regimes"`
branch. -/
def classifyRegimes (d : Derived) : Option RegimeResult :=
  if d.b1 > 0 ∧ d.b2 < 0 ∧ d.var1 < d.var2 then
    some { bull := regime1Desc d, bear := regime2Desc d }
  else if d.b2 > 0 ∧ d.b1 < 0 ∧ d.var2 < d.var1 then
    some { bull := regime2Desc d, bear := regime1Desc d }
  else none

/-- The diagnostic line printed when key `k` is absent
(`print(f"Missing parameter: {e}")`, where the `KeyError` renders as the
quoted key). -/
def missingMsg (k : String) : String :=
  "Missing parameter: \x27" ++ k ++ "\x27"

/-- The diagnostic line printed on the ambiguous-classification path. -/
def mixedMsg : String :=
  "Mixed regimes: Cannot clearly identify bull and bear regimes."

/-- The function `identify_2_regimes`, with the printed diagnostic lines made explicit:
returns the Python return value together with the list of printed lines.
The six lookups happen in the order of the `try` block, so the diagnostic
names the first missing key. -/
def identify_2_regimes_run (params : List (String × ℚ)) (decimals : Option ℤ) :
    Option RegimeResult × List String :=
  match params.lookup "p[0->0]" with
  | none => (none, [missingMsg "p[0->0]"])
  | some p11 =>
  match params.lookup "p[1->0]" with
  | none => (none, [missingMsg "p[1->0]"])
  | some p21 =>
  match params.lookup "const[0]" with
  | none => (none, [missingMsg "const[0]"])
  | some b1 =>
  match params.lookup "const[1]" with
  | none => (none, [missingMsg "const[1]"])
  | some b2 =>
  match params.lookup "sigma2[0]" with
  | none => (none, [missingMsg "sigma2[0]"])
  | some var1 =>
  match params.lookup "sigma2[1]" with
  | none => (none, [missingMsg "sigma2[1]"])
  | some var2 =>
    match classifyRegimes (roundDerived decimals (deriveAll p11 p21 b1 b2 var1 var2)) with
    | some r => (some r, [])
    | none => (none, [mixedMsg])

/-- Python `identify_2_regimes(params, decimals=4)`: the returned value
(`none` models a `None` return). -/
def identify_2_regimes (params : List (String × ℚ)) (decimals : Option ℤ := some 4) :
    Option RegimeResult :=
  (identify_2_regimes_run params decimals).1

/-- The required keys, in the lookup order of the `try` block. -/
def requiredKeys : List String :=
  ["p[0->0]", "p[1->0]", "const[0]", "const[1]", "sigma2[0]", "sigma2[1]"]

/-- The first required key absent from `params`, if any. -/
def firstMissing (params : List (String × ℚ)) : Option String :=
  requiredKeys.find? (fun k => (params.lookup k).isNone)

/-- Digit run of Python `int()`: a non-empty ASCII digit string in which a
single underscore may stand between two digits. `acc` is the value read so
far; the caller has checked that the first character is a digit. -/
def digitsCore : ℕ → List Char → Option ℕ
  | acc, [] => some acc
  | acc, '_' :: d :: rest =>
    if d.isDigit then digitsCore (acc * 10 + (d.toNat - 48)) rest else none
  | acc, d :: rest =>
    if d.isDigit then digitsCore (acc * 10 + (d.toNat - 48)) rest else none

/-- Python `int(s)` on a character list: strip surrounding whitespace, allow
one optional sign, then a digit run (underscores between digits allowed).
`none` models a raised `ValueError`. -/
def pythonInt? (cs : List Char) : Option ℤ :=
  let t := (((cs.dropWhile Char.isWhitespace).reverse.dropWhile Char.isWhitespace).reverse)
  match t with
  | [] => none
  | '-' :: rest =>
    match rest with
    | [] => none
    | d :: _ => if d.isDigit then (digitsCore 0 rest).map (fun n => -(n : ℤ)) else none
  | '+' :: rest =>
    match rest with
    | [] => none
    | d :: _ => if d.isDigit then (digitsCore 0 rest).map (fun n => (n : ℤ)) else none
  | d :: _ => if d.isDigit then (digitsCore 0 t).map (fun n => (n : ℤ)) else none

/-- Python `idx.split('[')[1]` for a key containing a `'['`: the characters strictly
between the first `'['` and the following `'['` (or the end). -/
def afterFirstBracket (cs : List Char) : List Char :=
  (((cs.dropWhile (fun c => c ≠ '[')).drop 1).takeWhile (fun c => c ≠ '['))

/-- Python `.rstrip(']')`: drop every trailing `']'`. -/
def rstripBrackets (cs : List Char) : List Char :=
  ((cs.reverse.dropWhile (fun c => c = ']')).reverse)

/-- The regime index parsed from a `const[...]` key:
`int(idx.split('[')[1].rstrip(']'))`. -/
def parseRegimeIdx (key : String) : Option ℤ :=
  pythonInt? (rstripBrackets (afterFirstBracket key.toList))

/-- Python-dict insertion: overwriting an existing key keeps its original
position, a new key goes to the end. -/
def dictInsert (k : ℤ) (v : ℚ) : List (ℤ × ℚ) → List (ℤ × ℚ)
  | [] => [(k, v)]
  | (k', v') :: rest =>
    if k' = k then (k, v) :: rest else (k', v') :: dictInsert k v rest

/-- The dict comprehension of `identify_3_regimes`, processed left to right;
`none` models a `ValueError` raised by `int()` on a malformed key. -/
def constValsAux : List (String × ℚ) → List (ℤ × ℚ) → Option (List (ℤ × ℚ))
  | [], acc => some acc
  | (k, v) :: rest, acc =>
    if ("const[".toList).isPrefixOf k.toList then
      match parseRegimeIdx k with
      | none => none
      | some i => constValsAux rest (dictInsert i v acc)
    else constValsAux rest acc

/-- The dictionary `const_vals`: regime index ↦ constant estimate, in insertion order. -/
def constVals (estimates : List (String × ℚ)) : Option (List (ℤ × ℚ)) :=
  constValsAux estimates []

/-- The sort key of `sorted(const_vals, key=lambda r: const_vals[r])`, on
(index, value) pairs. -/
def constLe (a b : ℤ × ℚ) : Prop := a.2 ≤ b.2

instance : DecidableRel constLe := fun a b => inferInstanceAs (Decidable (a.2 ≤ b.2))

instance : IsTotal (ℤ × ℚ) constLe := ⟨fun a b => le_total a.2 b.2⟩

instance : IsTrans (ℤ × ℚ) constLe := ⟨fun _ _ _ h h' => le_trans h h'⟩

/-- Python `identify_3_regimes(estimates)`. An `error` result models a raised
`ValueError` (malformed key, or an unpacking of `sorted_by_const` into three
names that does not fit). -/
def identify_3_regimes (estimates : List (String × ℚ)) :
    Except String (List (String × ℤ)) :=
  match constVals estimates with
  | none => .error "ValueError: invalid literal for int()"
  | some cv =>
    match List.insertionSort constLe cv with
    | [br, ch, bl] => .ok [("Bull", bl.1), ("Bear", br.1), ("Chop", ch.1)]
    | _ => .error "ValueError: cannot unpack sorted_by_const into three regimes"

instance {ε α : Type} [DecidableEq ε] [DecidableEq α] : DecidableEq (Except ε α)
  | .error a, .error b =>
    if h : a = b then .isTrue (by rw [h]) else .isFalse (by intro k; cases k; exact h rfl)
  | .error _, .ok _ => .isFalse (by intro k; cases k)
  | .ok _, .error _ => .isFalse (by intro k; cases k)
  | .ok a, .ok b =>
    if h : a = b then .isTrue (by rw [h]) else .isFalse (by intro k; cases k; exact h rfl)

/-- One row of the summary `DataFrame`: composite row key (Regime, Parameter)
and the three columns; a "not-a-number" cell is `none`. -/
structure SummaryRow where
  regime : String
  parameter : String
  estimate : Option ℝ
  tstat : Option ℚ
  pvalue : Option ℚ

/-- The `param_keys` list of `build_3_regimes_summary_table`: key prefix and
display name. -/
def param_keys : List (String × String) :=
  [("const", "Constant"), ("ar.L1", "AR(1)"), ("ar.L2", "AR(2)"), ("sigma2", "Std. Deviation")]

/-- The fixed enumeration `["Bull", "Bear", "Chop"]` used as the sort key. -/
def labelOrder : List String := ["Bull", "Bear", "Chop"]

/-- Python `["Bull", "Bear", "Chop"].index(lbl)`, the rank of a regime label. -/
def labelRank (s : String) : ℕ := labelOrder.indexOf s

/-- The ordering of `sorted(label_map.items(), key=...)`: by rank of the
label. -/
def labelLe (a b : String × ℤ) : Prop := labelRank a.1 ≤ labelRank b.1

instance : DecidableRel labelLe :=
  fun a b => inferInstanceAs (Decidable (labelRank a.1 ≤ labelRank b.1))

instance : IsTotal (String × ℤ) labelLe := ⟨fun a b => Nat.le_total (labelRank a.1) (labelRank b.1)⟩

instance : IsTrans (String × ℤ) labelLe := ⟨fun _ _ _ h h' => le_trans h h'⟩

/-- Python `build_3_regimes_summary_table(estimates, tvalues, pvalues, label_map)`.
Labels are sorted by their rank in `["Bull", "Bear", "Chop"]` (`.index`
raises `ValueError`, modelled by the `error` branch, when a label is not in
that list); for each label the four parameter rows are built by lookup, a
missing entry giving the NaN placeholder `none`; the `sigma2` estimate is
replaced by its square root (`np.sqrt` of a negative number is NaN). -/
noncomputable def build_3_regimes_summary_table
    (estimates tvalues pvalues : List (String × ℚ)) (label_map : List (String × ℤ)) :
    Except String (List SummaryRow) :=
  if label_map.all (fun x => labelOrder.contains x.1) then
    .ok ((List.insertionSort labelLe label_map).flatMap (fun lr =>
      param_keys.map (fun kp =>
        { regime := lr.1, parameter := kp.2,
          estimate :=
            match estimates.lookup (kp.1 ++ "[" ++ toString lr.2 ++ "]") with
            | none => none
            | some v =>
              if kp.1 = "sigma2" then (if v < 0 then none else some (Real.sqrt (v : ℝ)))
              else some ((v : ℚ) : ℝ),
          tstat := tvalues.lookup (kp.1 ++ "[" ++ toString lr.2 ++ "]"),
          pvalue := pvalues.lookup (kp.1 ++ "[" ++ toString lr.2 ++ "]") })))
  else .error "ValueError: label is not in list"

/-- Python `build_3_regimes_summary(estimates, tvalues, pvalues)`: derive the label
map with `identify_3_regimes`, then delegate to the table builder (an
exception from the identifier propagates). -/
noncomputable def build_3_regimes_summary
    (estimates tvalues pvalues : List (String × ℚ)) : Except String (List SummaryRow) :=
  match identify_3_regimes estimates with
  | .error msg => .error msg
  | .ok label_map => build_3_regimes_summary_table estimates tvalues pvalues label_map

/-- One masked assignment `result[(target == c1) & (gt == c2)] = code` seen
at a single cell: overwrite the cell when the two comparisons hold (a
comparison with a missing value is false), keep the previous content
otherwise. -/
def maskCell (c1 c2 code : ℤ) (t g r : Option ℤ) : Option ℤ :=
  if t = some c1 ∧ g = some c2 then some code else r

/-- The four masked assignments of `detect_tsm_classifications` applied to
one cell, in source order on an initially unset cell (a later assignment
would win, though the four masks are mutually exclusive). -/
def detectCell (t g : Option ℤ) : Option ℤ :=
  maskCell (-1) 1 4 t g (maskCell 1 (-1) 3 t g (maskCell (-1) (-1) 2 t g (maskCell 1 1 1 t g none)))

/-- Python `detect_tsm_classifications(target_df, ground_truth)`: the ground-truth
series is broadcast across the columns (one value per row), and every cell
of the prediction matrix is classified against the row's truth value.
Cells are `Option ℤ`: `none` models an unset / NaN entry. -/
def detect_tsm_classifications (target : List (List (Option ℤ))) (gt : List (Option ℤ)) :
    List (List (Option ℤ)) :=
  List.zipWith (fun row g => row.map (fun t => detectCell t g)) target gt

/-- The per-cell code table as the spec states it: (1,1) gives 1, (-1,-1)
gives 2, (1,-1) gives 3, (-1,1) gives 4, anything else stays unset. -/
def classifyCellSpec (t g : Option ℤ) : Option ℤ :=
  if t = some 1 ∧ g = some 1 then some 1
  else if t = some (-1) ∧ g = some (-1) then some 2
  else if t = some 1 ∧ g = some (-1) then some 3
  else if t = some (-1) ∧ g = some 1 then some 4
  else none

theorem run_of_getSix (params : List (String × ℚ)) (decimals : Option ℤ)
    (p11 p21 b1 b2 var1 var2 : ℚ)
    (h : getSix params = some (p11, p21, b1, b2, var1, var2)) :
    identify_2_regimes_run params decimals =
      match classifyRegimes (roundDerived decimals (deriveAll p11 p21 b1 b2 var1 var2)) with
      | some r => (some r, [])
      | none => (none, [mixedMsg]) := by
  unfold getSix at h
  unfold identify_2_regimes_run
  cases l1 : params.lookup "p[0->0]" with
  | none => simp only [l1] at h; exact Option.noConfusion h
  | some x1 =>
  simp only [l1] at h ⊢
  cases l2 : params.lookup "p[1->0]" with
  | none => simp only [l2] at h; exact Option.noConfusion h
  | some x2 =>
  simp only [l2] at h ⊢
  cases l3 : params.lookup "const[0]" with
  | none => simp only [l3] at h; exact Option.noConfusion h
  | some x3 =>
  simp only [l3] at h ⊢
  cases l4 : params.lookup "const[1]" with
  | none => simp only [l4] at h; exact Option.noConfusion h
  | some x4 =>
  simp only [l4] at h ⊢
  cases l5 : params.lookup "sigma2[0]" with
  | none => simp only [l5] at h; exact Option.noConfusion h
  | some x5 =>
  simp only [l5] at h ⊢
  cases l6 : params.lookup "sigma2[1]" with
  | none => simp only [l6] at h; exact Option.noConfusion h
  | some x6 =>
  simp only [l6] at h ⊢
  simp only [Option.some.injEq, Prod.mk.injEq] at h
  obtain ⟨e1, e2, e3, e4, e5, e6⟩ := h
  rw [e1, e2, e3, e4, e5, e6]

theorem run_of_missing (params : List (String × ℚ)) (decimals : Option ℤ) (k : String)
    (h : firstMissing params = some k) :
    identify_2_regimes_run params decimals = (none, [missingMsg k]) := by
  unfold firstMissing requiredKeys at h
  unfold identify_2_regimes_run
  cases l1 : params.lookup "p[0->0]" with
  | none =>
    simp only [List.find?, l1, Option.isNone_none, Option.some.injEq] at h
    simp only [l1, ← h]
  | some x1 =>
  simp only [List.find?, l1, Option.isNone_some] at h
  simp only [l1]
  cases l2 : params.lookup "p[1->0]" with
  | none =>
    simp only [List.find?, l2, Option.isNone_none, Option.some.injEq] at h
    simp only [l2, ← h]
  | some x2 =>
  simp only [List.find?, l2, Option.isNone_some] at h
  simp only [l2]
  cases l3 : params.lookup "const[0]" with
  | none =>
    simp only [List.find?, l3, Option.isNone_none, Option.some.injEq] at h
    simp only [l3, ← h]
  | some x3 =>
  simp only [List.find?, l3, Option.isNone_some] at h
  simp only [l3]
  cases l4 : params.lookup "const[1]" with
  | none =>
    simp only [List.find?, l4, Option.isNone_none, Option.some.injEq] at h
    simp only [l4, ← h]
  | some x4 =>
  simp only [List.find?, l4, Option.isNone_some] at h
  simp only [l4]
  cases l5 : params.lookup "sigma2[0]" with
  | none =>
    simp only [List.find?, l5, Option.isNone_none, Option.some.injEq] at h
    simp only [l5, ← h]
  | some x5 =>
  simp only [List.find?, l5, Option.isNone_some] at h
  simp only [l5]
  cases l6 : params.lookup "sigma2[1]" with
  | none =>
    simp only [List.find?, l6, Option.isNone_none, Option.some.injEq] at h
    simp only [l6, ← h]
  | some x6 =>
  simp only [List.find?, l6, Option.isNone_some] at h
  exact Option.noConfusion h

theorem roundHalfEven_lo (x : ℚ) (n : ℤ) (h1 : (n : ℚ) ≤ x) (h2 : x < (n : ℚ) + 1 / 2) :
    roundHalfEven x = n := by
  have hf : ⌊x⌋ = n := Int.floor_eq_iff.mpr ⟨h1, by linarith⟩
  unfold roundHalfEven
  rw [hf, if_pos (by linarith : x - (n : ℚ) < 1 / 2)]

theorem roundHalfEven_hi (x : ℚ) (n : ℤ) (h1 : (n : ℚ) + 1 / 2 < x) (h2 : x < (n : ℚ) + 1) :
    roundHalfEven x = n + 1 := by
  have hf : ⌊x⌋ = n := Int.floor_eq_iff.mpr ⟨by linarith, by linarith⟩
  unfold roundHalfEven
  rw [hf, if_neg (by linarith : ¬(x - (n : ℚ) < 1 / 2)),
    if_pos (by linarith : (1 : ℚ) / 2 < x - (n : ℚ))]

theorem pow10Q_two : pow10Q 2 = 100 := by simp [pow10Q]; norm_num

theorem pow10Q_four : pow10Q 4 = 10000 := by simp [pow10Q]; norm_num

theorem roundQ_lo (d : ℤ) (x q P : ℚ) (n : ℤ) (hP : pow10Q d = P)
    (h1 : (n : ℚ) ≤ x * P) (h2 : x * P < (n : ℚ) + 1 / 2)
    (hq : (n : ℚ) / P = q) : roundQ d x = q := by
  unfold roundQ
  rw [hP, roundHalfEven_lo _ n h1 h2, hq]

theorem roundQ_hi (d : ℤ) (x q P : ℚ) (n : ℤ) (hP : pow10Q d = P)
    (h1 : (n : ℚ) + 1 / 2 < x * P) (h2 : x * P < (n : ℚ) + 1)
    (hq : ((n : ℚ) + 1) / P = q) : roundQ d x = q := by
  unfold roundQ
  rw [hP, roundHalfEven_hi _ n h1 h2, Int.cast_add, Int.cast_one, hq]

/-- C1: with the six required keys present, `identify_2_regimes` returns a
non-null result exactly when one regime has positive derived `beta0`, the
other a negative one, and the positive-`beta0` regime the strictly lower
variance; in that case that regime is `'bull'` and the other `'bear'`, with
descriptors `{beta0, var, p11, p12}` (regime 1) and `{beta0, var, p22, p21}`
(regime 2) holding the derived values (`p12 = 1 - p11`, `p22 = 1 - p21`,
rounding applied per `decimals`). -/
theorem identify_2_regimes_classification (params : List (String × ℚ)) (decimals : Option ℤ)
    (p11 p21 b1 b2 var1 var2 : ℚ) (D : Derived)
    (h : getSix params = some (p11, p21, b1, b2, var1, var2))
    (hD : D = roundDerived decimals (deriveAll p11 p21 b1 b2 var1 var2)) :
    (identify_2_regimes params decimals ≠ none ↔
      ((D.b1 > 0 ∧ D.b2 < 0 ∧ D.var1 < D.var2) ∨ (D.b2 > 0 ∧ D.b1 < 0 ∧ D.var2 < D.var1)))
    ∧ ((D.b1 > 0 ∧ D.b2 < 0 ∧ D.var1 < D.var2) →
        identify_2_regimes params decimals =
          some { bull := [("beta0", D.b1), ("var", D.var1), ("p11", D.p11), ("p12", D.p12)],
                 bear := [("beta0", D.b2), ("var", D.var2), ("p22", D.p22), ("p21", D.p21)] })
    ∧ ((D.b2 > 0 ∧ D.b1 < 0 ∧ D.var2 < D.var1) →
        identify_2_regimes params decimals =
          some { bull := [("beta0", D.b2), ("var", D.var2), ("p22", D.p22), ("p21", D.p21)],
                 bear := [("beta0", D.b1), ("var", D.var1), ("p11", D.p11), ("p12", D.p12)] }) := by
  have hr := run_of_getSix params decimals p11 p21 b1 b2 var1 var2 h
  unfold identify_2_regimes
  rw [hr, ← hD]
  unfold classifyRegimes
  by_cases h1 : D.b1 > 0 ∧ D.b2 < 0 ∧ D.var1 < D.var2
  · rw [if_pos h1]
    exact ⟨⟨fun _ => Or.inl h1, fun _ => by simp⟩, fun _ => rfl,
      fun h2 => absurd h1.1 (lt_asymm h2.2.1)⟩
  · rw [if_neg h1]
    by_cases h2 : D.b2 > 0 ∧ D.b1 < 0 ∧ D.var2 < D.var1
    · rw [if_pos h2]
      exact ⟨⟨fun _ => Or.inr h2, fun _ => by simp⟩, fun h1' => absurd h1' h1, fun _ => rfl⟩
    · rw [if_neg h2]
      exact ⟨⟨fun hne => absurd rfl hne,
        fun hor => hor.elim (fun hh => absurd hh h1) (fun hh => absurd hh h2)⟩,
        fun h1' => absurd h1' h1, fun h2' => absurd h2' h2⟩

theorem c1_witness :
    (identify_2_regimes
        [("p[0->0]", 9/10), ("p[1->0]", 2/10), ("const[0]", 2/100),
         ("const[1]", -3/100), ("sigma2[0]", 1/100), ("sigma2[1]", 5/100)] (some 4) ≠ none ↔
      (((1:ℚ)/50 > 0 ∧ (-3/100:ℚ) < 0 ∧ (1/100:ℚ) < 1/20) ∨
       ((-3/100:ℚ) > 0 ∧ (1:ℚ)/50 < 0 ∧ (1/20:ℚ) < 1/100)))
    ∧ (((1:ℚ)/50 > 0 ∧ (-3/100:ℚ) < 0 ∧ (1/100:ℚ) < 1/20) →
        identify_2_regimes
          [("p[0->0]", 9/10), ("p[1->0]", 2/10), ("const[0]", 2/100),
           ("const[1]", -3/100), ("sigma2[0]", 1/100), ("sigma2[1]", 5/100)] (some 4) =
          some { bull := [("beta0", 1/50), ("var", 1/100), ("p11", 9/10), ("p12", 1/10)],
                 bear := [("beta0", -3/100), ("var", 1/20), ("p22", 4/5), ("p21", 1/5)] })
    ∧ (((-3/100:ℚ) > 0 ∧ (1:ℚ)/50 < 0 ∧ (1/20:ℚ) < 1/100) →
        identify_2_regimes
          [("p[0->0]", 9/10), ("p[1->0]", 2/10), ("const[0]", 2/100),
           ("const[1]", -3/100), ("sigma2[0]", 1/100), ("sigma2[1]", 5/100)] (some 4) =
          some { bull := [("beta0", -3/100), ("var", 1/20), ("p22", 4/5), ("p21", 1/5)],
                 bear := [("beta0", 1/50), ("var", 1/100), ("p11", 9/10), ("p12", 1/10)] }) := by
  refine identify_2_regimes_classification _ (some 4) (9/10) (2/10) (2/100) (-3/100) (1/100) (5/100)
    { p11 := 9/10, p21 := 1/5, p12 := 1/10, p22 := 4/5,
      b1 := 1/50, b2 := -3/100, var1 := 1/100, var2 := 1/20 } rfl ?_
  simp only [roundDerived, deriveAll, Derived.mk.injEq]
  refine ⟨?_, ?_, ?_, ?_, ?_, ?_, ?_, ?_⟩
  · exact (roundQ_lo 4 _ _ _ 9000 pow10Q_four (by norm_num) (by norm_num) (by norm_num)).symm
  · exact (roundQ_lo 4 _ _ _ 2000 pow10Q_four (by norm_num) (by norm_num) (by norm_num)).symm
  · exact (roundQ_lo 4 _ _ _ 1000 pow10Q_four (by norm_num) (by norm_num) (by norm_num)).symm
  · exact (roundQ_lo 4 _ _ _ 8000 pow10Q_four (by norm_num) (by norm_num) (by norm_num)).symm
  · exact (roundQ_lo 4 _ _ _ 200 pow10Q_four (by norm_num) (by norm_num) (by norm_num)).symm
  · exact (roundQ_lo 4 _ _ _ (-300) pow10Q_four (by norm_num) (by norm_num) (by norm_num)).symm
  · exact (roundQ_lo 4 _ _ _ 100 pow10Q_four (by norm_num) (by norm_num) (by norm_num)).symm
  · exact (roundQ_lo 4 _ _ _ 500 pow10Q_four (by norm_num) (by norm_num) (by norm_num)).symm

/-- C7: with rounding enabled (`some n`), all eight derived values are
rounded to `n` decimal places before being placed in the descriptors, and
`decimals = none` disables rounding entirely: the classification then runs
on the raw derived values. -/
theorem identify_2_regimes_rounding (params : List (String × ℚ)) (n : ℤ)
    (p11 p21 b1 b2 var1 var2 : ℚ)
    (h : getSix params = some (p11, p21, b1, b2, var1, var2)) :
    roundDerived (some n) (deriveAll p11 p21 b1 b2 var1 var2) =
      { p11 := roundQ n p11, p21 := roundQ n p21,
        p12 := roundQ n (1 - p11), p22 := roundQ n (1 - p21),
        b1 := roundQ n b1, b2 := roundQ n b2,
        var1 := roundQ n var1, var2 := roundQ n var2 }
    ∧ identify_2_regimes params (some n) =
        classifyRegimes (roundDerived (some n) (deriveAll p11 p21 b1 b2 var1 var2))
    ∧ identify_2_regimes params none =
        classifyRegimes (deriveAll p11 p21 b1 b2 var1 var2) := by
  refine ⟨rfl, ?_, ?_⟩
  · unfold identify_2_regimes
    rw [run_of_getSix params (some n) p11 p21 b1 b2 var1 var2 h]
    cases classifyRegimes (roundDerived (some n) (deriveAll p11 p21 b1 b2 var1 var2)) <;> rfl
  · unfold identify_2_regimes
    rw [run_of_getSix params none p11 p21 b1 b2 var1 var2 h]
    show (match classifyRegimes (deriveAll p11 p21 b1 b2 var1 var2) with
      | some r => (some r, ([] : List String))
      | none => (none, [mixedMsg])).1 = _
    cases classifyRegimes (deriveAll p11 p21 b1 b2 var1 var2) <;> rfl

theorem c7_witness :
    identify_2_regimes
      [("p[0->0]", 9/10), ("p[1->0]", 2/10), ("const[0]", 23456/1000000),
       ("const[1]", -3/100), ("sigma2[0]", 1/100), ("sigma2[1]", 5/100)] (some 2) =
      some { bull := [("beta0", 1/50), ("var", 1/100), ("p11", 9/10), ("p12", 1/10)],
             bear := [("beta0", -3/100), ("var", 1/20), ("p22", 4/5), ("p21", 1/5)] }
    ∧ identify_2_regimes
      [("p[0->0]", 9/10), ("p[1->0]", 2/10), ("const[0]", 23456/1000000),
       ("const[1]", -3/100), ("sigma2[0]", 1/100), ("sigma2[1]", 5/100)] none =
      some { bull := [("beta0", 23456/1000000), ("var", 1/100), ("p11", 9/10), ("p12", 1/10)],
             bear := [("beta0", -3/100), ("var", 1/20), ("p22", 4/5), ("p21", 1/5)] } := by
  have H := identify_2_regimes_rounding
    [("p[0->0]", 9/10), ("p[1->0]", 2/10), ("const[0]", 23456/1000000),
     ("const[1]", -3/100), ("sigma2[0]", 1/100), ("sigma2[1]", 5/100)] 2
    (9/10) (2/10) (23456/1000000) (-3/100) (1/100) (5/100) rfl
  constructor
  · rw [H.2.1, H.1]
    rw [roundQ_lo 2 (9/10) (9/10) _ 90 pow10Q_two (by norm_num) (by norm_num) (by norm_num),
      roundQ_lo 2 (2/10) (1/5) _ 20 pow10Q_two (by norm_num) (by norm_num) (by norm_num),
      roundQ_lo 2 (1 - 9/10) (1/10) _ 10 pow10Q_two (by norm_num) (by norm_num) (by norm_num),
      roundQ_lo 2 (1 - 2/10) (4/5) _ 80 pow10Q_two (by norm_num) (by norm_num) (by norm_num),
      roundQ_lo 2 (23456/1000000) (1/50) _ 2 pow10Q_two (by norm_num) (by norm_num) (by norm_num),
      roundQ_lo 2 (-3/100) (-3/100) _ (-3) pow10Q_two (by norm_num) (by norm_num) (by norm_num),
      roundQ_lo 2 (1/100) (1/100) _ 1 pow10Q_two (by norm_num) (by norm_num) (by norm_num),
      roundQ_lo 2 (5/100) (1/20) _ 5 pow10Q_two (by norm_num) (by norm_num) (by norm_num)]
    norm_num [classifyRegimes, regime1Desc, regime2Desc]
  · rw [H.2.2]
    norm_num [classifyRegimes, deriveAll, regime1Desc, regime2Desc]

/-- C5: on its two failure paths `identify_2_regimes` returns `None` rather
than raising: a missing required key produces the printed diagnostic naming
the first missing key and a null return, and parameters failing the
bull/bear sign-and-variance test produce the printed "Mixed regimes" message
and a null return. -/
theorem identify_2_regimes_failure_paths :
    (∀ (params : List (String × ℚ)) (decimals : Option ℤ) (k : String),
        firstMissing params = some k →
        identify_2_regimes_run params decimals = (none, [missingMsg k]))
    ∧ (∀ (params : List (String × ℚ)) (decimals : Option ℤ)
        (p11 p21 b1 b2 var1 var2 : ℚ) (D : Derived),
        getSix params = some (p11, p21, b1, b2, var1, var2) →
        D = roundDerived decimals (deriveAll p11 p21 b1 b2 var1 var2) →
        ¬(D.b1 > 0 ∧ D.b2 < 0 ∧ D.var1 < D.var2) →
        ¬(D.b2 > 0 ∧ D.b1 < 0 ∧ D.var2 < D.var1) →
        identify_2_regimes_run params decimals = (none, [mixedMsg])) := by
  constructor
  · exact fun params decimals k h => run_of_missing params decimals k h
  · intro params decimals p11 p21 b1 b2 var1 var2 D h hD h1 h2
    rw [run_of_getSix params decimals p11 p21 b1 b2 var1 var2 h, ← hD]
    unfold classifyRegimes
    rw [if_neg h1, if_neg h2]

theorem c5_witness :
    identify_2_regimes_run [("p[0->0]", (1:ℚ))] (some 4) = (none, [missingMsg "p[1->0]"])
    ∧ identify_2_regimes_run
        [("p[0->0]", 9/10), ("p[1->0]", 2/10), ("const[0]", 2/100),
         ("const[1]", 3/100), ("sigma2[0]", 1/100), ("sigma2[1]", 5/100)] (some 4) =
      (none, [mixedMsg]) := by
  constructor
  · exact identify_2_regimes_failure_paths.1 _ (some 4) "p[1->0]" rfl
  · refine identify_2_regimes_failure_paths.2 _ (some 4) (9/10) (2/10) (2/100) (3/100)
      (1/100) (5/100)
      { p11 := 9/10, p21 := 1/5, p12 := 1/10, p22 := 4/5,
        b1 := 1/50, b2 := 3/100, var1 := 1/100, var2 := 1/20 } rfl ?_ (by norm_num) (by norm_num)
    simp only [roundDerived, deriveAll, Derived.mk.injEq]
    refine ⟨?_, ?_, ?_, ?_, ?_, ?_, ?_, ?_⟩
    · exact (roundQ_lo 4 _ _ _ 9000 pow10Q_four (by norm_num) (by norm_num) (by norm_num)).symm
    · exact (roundQ_lo 4 _ _ _ 2000 pow10Q_four (by norm_num) (by norm_num) (by norm_num)).symm
    · exact (roundQ_lo 4 _ _ _ 1000 pow10Q_four (by norm_num) (by norm_num) (by norm_num)).symm
    · exact (roundQ_lo 4 _ _ _ 8000 pow10Q_four (by norm_num) (by norm_num) (by norm_num)).symm
    · exact (roundQ_lo 4 _ _ _ 200 pow10Q_four (by norm_num) (by norm_num) (by norm_num)).symm
    · exact (roundQ_lo 4 _ _ _ 300 pow10Q_four (by norm_num) (by norm_num) (by norm_num)).symm
    · exact (roundQ_lo 4 _ _ _ 100 pow10Q_four (by norm_num) (by norm_num) (by norm_num)).symm
    · exact (roundQ_lo 4 _ _ _ 500 pow10Q_four (by norm_num) (by norm_num) (by norm_num)).symm

/-- C10: the bull/bear test runs on the rounded values, not the raw
parameters: `const[0] = 0.00001` satisfies the raw sign/variance conditions,
but at the default 4-decimal precision it rounds to `0`, which is no longer
strictly positive, so `identify_2_regimes` returns `None`. -/
theorem identify_2_regimes_rounds_before_classifying :
    ((0:ℚ) < 1/100000 ∧ (-3/100:ℚ) < 0 ∧ (1/100:ℚ) < 5/100)
    ∧ roundQ 4 (1/100000) = 0
    ∧ identify_2_regimes
        [("p[0->0]", 9/10), ("p[1->0]", 2/10), ("const[0]", 1/100000),
         ("const[1]", -3/100), ("sigma2[0]", 1/100), ("sigma2[1]", 5/100)]
        (some 4) = none := by
  have hb : roundQ 4 ((1:ℚ)/100000) = 0 :=
    roundQ_lo 4 _ _ _ 0 pow10Q_four (by norm_num) (by norm_num) (by norm_num)
  refine ⟨by norm_num, hb, ?_⟩
  unfold identify_2_regimes
  rw [run_of_getSix
    [("p[0->0]", 9/10), ("p[1->0]", 2/10), ("const[0]", 1/100000),
     ("const[1]", -3/100), ("sigma2[0]", 1/100), ("sigma2[1]", 5/100)]
    (some 4) (9/10) (2/10) (1/100000) (-3/100) (1/100) (5/100) rfl]
  have hc : classifyRegimes (roundDerived (some 4)
      (deriveAll (9/10) (2/10) (1/100000) (-3/100) (1/100) (5/100))) = none := by
    have hD : roundDerived (some 4)
        (deriveAll (9/10) (2/10) (1/100000) (-3/100) (1/100) (5/100)) =
        { p11 := 9/10, p21 := 1/5, p12 := 1/10, p22 := 4/5,
          b1 := 0, b2 := -3/100, var1 := 1/100, var2 := 1/20 } := by
      simp only [roundDerived, deriveAll]
      rw [roundQ_lo 4 (9/10) (9/10) _ 9000 pow10Q_four (by norm_num) (by norm_num) (by norm_num),
        roundQ_lo 4 (2/10) (1/5) _ 2000 pow10Q_four (by norm_num) (by norm_num) (by norm_num),
        roundQ_lo 4 (1 - 9/10) (1/10) _ 1000 pow10Q_four (by norm_num) (by norm_num) (by norm_num),
        roundQ_lo 4 (1 - 2/10) (4/5) _ 8000 pow10Q_four (by norm_num) (by norm_num) (by norm_num),
        roundQ_lo 4 (1/100000) 0 _ 0 pow10Q_four (by norm_num) (by norm_num) (by norm_num),
        roundQ_lo 4 (-3/100) (-3/100) _ (-300) pow10Q_four (by norm_num) (by norm_num) (by norm_num),
        roundQ_lo 4 (1/100) (1/100) _ 100 pow10Q_four (by norm_num) (by norm_num) (by norm_num),
        roundQ_lo 4 (5/100) (1/20) _ 500 pow10Q_four (by norm_num) (by norm_num) (by norm_num)]
    rw [hD]
    norm_num [classifyRegimes]
  rw [hc]

/-- C2: when the `const[...]` keys parse to exactly three distinct regime
indices, `identify_3_regimes` sorts the indices by ascending constant and
maps the lowest to `Bear`, the middle to `Chop` and the highest to `Bull`,
the three values forming a permutation of the detected indices. -/
theorem identify_3_regimes_labels (estimates : List (String × ℚ)) (cv : List (ℤ × ℚ))
    (h : constVals estimates = some cv) (h3 : cv.length = 3) :
    ∃ x y z : ℤ × ℚ,
      List.insertionSort constLe cv = [x, y, z]
      ∧ List.Perm [x, y, z] cv
      ∧ x.2 ≤ y.2 ∧ y.2 ≤ z.2
      ∧ identify_3_regimes estimates = .ok [("Bull", z.1), ("Bear", x.1), ("Chop", y.1)] := by
  have hp := List.perm_insertionSort constLe cv
  have hs := List.sorted_insertionSort constLe cv
  have hl : (List.insertionSort constLe cv).length = 3 := by rw [hp.length_eq, h3]
  rcases e : List.insertionSort constLe cv with _ | ⟨x, _ | ⟨y, _ | ⟨z, _ | w⟩⟩⟩
  · rw [e] at hl; exact absurd hl (by simp)
  · rw [e] at hl; exact absurd hl (by simp)
  · rw [e] at hl; exact absurd hl (by simp)
  case cons.cons.cons.cons w' =>
    rw [e] at hl
    simp only [List.length_cons] at hl
    omega
  · rw [e] at hp hs
    refine ⟨x, y, z, rfl, hp, ?_, ?_, ?_⟩
    · exact (List.sorted_cons.mp hs).1 y (by simp)
    · exact (List.sorted_cons.mp (List.sorted_cons.mp hs).2).1 z (by simp)
    · unfold identify_3_regimes
      rw [h]
      simp only [e]

theorem c2_witness :
    (∃ x y z : ℤ × ℚ,
      List.insertionSort constLe [(0, mkRat (-1) 100), (1, mkRat 3 100), (2, mkRat 1 1000)] = [x, y, z]
      ∧ List.Perm [x, y, z] [(0, mkRat (-1) 100), (1, mkRat 3 100), (2, mkRat 1 1000)]
      ∧ x.2 ≤ y.2 ∧ y.2 ≤ z.2
      ∧ identify_3_regimes
          [("const[0]", mkRat (-1) 100), ("const[1]", mkRat 3 100), ("const[2]", mkRat 1 1000)] =
          .ok [("Bull", z.1), ("Bear", x.1), ("Chop", y.1)])
    ∧ identify_3_regimes
        [("const[0]", mkRat (-1) 100), ("const[1]", mkRat 3 100), ("const[2]", mkRat 1 1000)] =
        .ok [("Bull", 1), ("Bear", 0), ("Chop", 2)] :=
  ⟨identify_3_regimes_labels
      [("const[0]", mkRat (-1) 100), ("const[1]", mkRat 3 100), ("const[2]", mkRat 1 1000)]
      [(0, mkRat (-1) 100), (1, mkRat 3 100), (2, mkRat 1 1000)] (by decide) (by decide),
   by decide⟩

/-- C9: when the `const[...]` keys of the series do not describe exactly
three distinct regime indices — a key whose bracketed text is not an integer
(a `ValueError` from `int()`), or fewer or more than three distinct parsed
indices (a failed three-way unpacking) — `identify_3_regimes` raises rather
than returning a label mapping. -/
theorem identify_3_regimes_error (estimates : List (String × ℚ))
    (h : (constVals estimates).map List.length ≠ some 3) :
    ∃ msg, identify_3_regimes estimates = .error msg := by
  unfold identify_3_regimes
  cases hc : constVals estimates with
  | none => exact ⟨_, rfl⟩
  | some cv =>
    have hl : cv.length ≠ 3 := by rw [hc] at h; simpa using h
    have hp := List.perm_insertionSort constLe cv
    rcases e : List.insertionSort constLe cv with _ | ⟨x, _ | ⟨y, _ | ⟨z, _ | w⟩⟩⟩
    · simp only [e]; exact ⟨_, rfl⟩
    · simp only [e]; exact ⟨_, rfl⟩
    · simp only [e]; exact ⟨_, rfl⟩
    case cons.cons.cons.cons w' =>
      simp only [e]; exact ⟨_, rfl⟩
    · rw [e] at hp
      exact absurd (by rw [← hp.length_eq]; rfl : cv.length = 3) hl

theorem c9_witness :
    ((∃ msg, identify_3_regimes [("const[x]", mkRat 1 2)] = .error msg)
      ∧ (∃ msg, identify_3_regimes [("const[0]", mkRat 1 2), ("const[1]", mkRat 1 3)] = .error msg)
      ∧ (∃ msg, identify_3_regimes
          [("const[0]", (1:ℚ)), ("const[1]", (2:ℚ)), ("const[2]", (3:ℚ)), ("const[3]", (4:ℚ))] =
          .error msg)) :=
  ⟨identify_3_regimes_error _ (by decide),
   identify_3_regimes_error _ (by decide),
   identify_3_regimes_error _ (by decide)⟩

/-- C6: whenever `identify_3_regimes` succeeds on the estimates, the
convenience wrapper produces exactly the table that
`build_3_regimes_summary_table` produces for that derived label
assignment. -/
theorem build_3_regimes_summary_is_composition
    (estimates tvalues pvalues : List (String × ℚ)) (label_map : List (String × ℤ))
    (h : identify_3_regimes estimates = .ok label_map) :
    build_3_regimes_summary estimates tvalues pvalues =
      build_3_regimes_summary_table estimates tvalues pvalues label_map := by
  unfold build_3_regimes_summary
  rw [h]

theorem c6_witness :
    build_3_regimes_summary
      [("const[0]", mkRat (-1) 100), ("const[1]", mkRat 3 100), ("const[2]", mkRat 1 1000),
       ("sigma2[1]", mkRat 1 25)]
      [("const[1]", mkRat 21 10)] [("const[1]", mkRat 1 20)] =
    build_3_regimes_summary_table
      [("const[0]", mkRat (-1) 100), ("const[1]", mkRat 3 100), ("const[2]", mkRat 1 1000),
       ("sigma2[1]", mkRat 1 25)]
      [("const[1]", mkRat 21 10)] [("const[1]", mkRat 1 20)]
      [("Bull", 1), ("Bear", 0), ("Chop", 2)] :=
  build_3_regimes_summary_is_composition _ _ _ _ (by decide)

/-- C8: for any label assignment whose keys are exactly the three labels
`Bull`, `Bear`, `Chop` — in any order of its entries — the table rows come
in the fixed order Bull, Bear, Chop, each label followed by Constant, AR(1),
AR(2), Std. Deviation; each row carries the Estimate / t-statistic / p-value
columns. -/
theorem table_row_order (e t p : List (String × ℚ)) (lm : List (String × ℤ))
    (h : List.Perm (lm.map Prod.fst) ["Bull", "Bear", "Chop"]) :
    ∃ rows, build_3_regimes_summary_table e t p lm = .ok rows ∧
      rows.map (fun r => (r.regime, r.parameter)) =
        [("Bull", "Constant"), ("Bull", "AR(1)"), ("Bull", "AR(2)"), ("Bull", "Std. Deviation"),
         ("Bear", "Constant"), ("Bear", "AR(1)"), ("Bear", "AR(2)"), ("Bear", "Std. Deviation"),
         ("Chop", "Constant"), ("Chop", "AR(1)"), ("Chop", "AR(2)"), ("Chop", "Std. Deviation")] := by
  have hlen : lm.length = 3 := by simpa using h.length_eq
  rcases lm with _ | ⟨⟨a, ra⟩, _ | ⟨⟨b, rb⟩, _ | ⟨⟨c, rc⟩, _ | ⟨d, l⟩⟩⟩⟩
  · simp at hlen
  · simp at hlen
  · simp at hlen
  case cons.mk.cons.mk.cons.mk.cons => simp at hlen
  simp only [List.map] at h
  have hnd : (["Bull", "Bear", "Chop"] : List String).Nodup := by decide
  have hnd' : ([a, b, c] : List String).Nodup := h.symm.nodup hnd
  have ha : a ∈ (["Bull", "Bear", "Chop"] : List String) := h.subset (by simp)
  have hb : b ∈ (["Bull", "Bear", "Chop"] : List String) := h.subset (by simp)
  have hc : c ∈ (["Bull", "Bear", "Chop"] : List String) := h.subset (by simp)
  simp only [List.mem_cons, List.mem_singleton, List.not_mem_nil, or_false] at ha hb hc
  rcases ha with rfl | rfl | rfl <;> rcases hb with rfl | rfl | rfl <;>
    rcases hc with rfl | rfl | rfl <;>
    first
      | exact ⟨_, rfl, rfl⟩
      | (exfalso; simp at hnd')

theorem c8_witness :
    ∃ rows, build_3_regimes_summary_table [] [] [] [("Chop", 2), ("Bull", 1), ("Bear", 0)] = .ok rows ∧
      rows.map (fun r => (r.regime, r.parameter)) =
        [("Bull", "Constant"), ("Bull", "AR(1)"), ("Bull", "AR(2)"), ("Bull", "Std. Deviation"),
         ("Bear", "Constant"), ("Bear", "AR(1)"), ("Bear", "AR(2)"), ("Bear", "Std. Deviation"),
         ("Chop", "Constant"), ("Chop", "AR(1)"), ("Chop", "AR(2)"), ("Chop", "Std. Deviation")] :=
  table_row_order [] [] [] [("Chop", 2), ("Bull", 1), ("Bear", 0)] (by decide)

/-- C4: every row of `build_3_regimes_summary_table` comes from some label
and parameter prefix: the t-statistic and p-value are the plain lookups of
`<prefix>[<regime-index>]` in their series (a missing entry giving the NaN
placeholder), and the Estimate is the same lookup — converted to the square
root of the looked-up variance for the `sigma2` row only (NaN for a missing
or negative entry), passed through unchanged, as a real value, for the other
rows. -/
theorem table_rows_spec (e t p : List (String × ℚ)) (lm : List (String × ℤ))
    (rows : List SummaryRow)
    (h : build_3_regimes_summary_table e t p lm = .ok rows) :
    ∀ r ∈ rows, ∃ lbl reg kp, (lbl, reg) ∈ lm ∧ kp ∈ param_keys ∧
      r.regime = lbl ∧ r.parameter = kp.2 ∧
      r.tstat = t.lookup (kp.1 ++ "[" ++ toString reg ++ "]") ∧
      r.pvalue = p.lookup (kp.1 ++ "[" ++ toString reg ++ "]") ∧
      (kp.1 ≠ "sigma2" →
        r.estimate = (e.lookup (kp.1 ++ "[" ++ toString reg ++ "]")).map (fun v => ((v : ℚ) : ℝ))) ∧
      (kp.1 = "sigma2" →
        r.estimate = (e.lookup (kp.1 ++ "[" ++ toString reg ++ "]")).bind
          (fun v => if v < 0 then none else some (Real.sqrt (v : ℝ)))) := by
  unfold build_3_regimes_summary_table at h
  split at h
  case isFalse => exact absurd h (by simp)
  case isTrue =>
  simp only [Except.ok.injEq] at h
  intro r hr
  rw [← h] at hr
  obtain ⟨lr, hlr, hr'⟩ := List.mem_flatMap.mp hr
  obtain ⟨kp, hkp, hrow⟩ := List.mem_map.mp hr'
  have hlm : lr ∈ lm := ((List.perm_insertionSort labelLe lm).mem_iff).mp hlr
  refine ⟨lr.1, lr.2, kp, hlm, hkp, ?_, ?_, ?_, ?_, ?_, ?_⟩ <;> rw [← hrow]
  · intro hne
    show (match e.lookup (kp.1 ++ "[" ++ toString lr.2 ++ "]") with
      | none => none
      | some v =>
        if kp.1 = "sigma2" then (if v < 0 then none else some (Real.sqrt (v : ℝ)))
        else some ((v : ℚ) : ℝ)) = _
    cases e.lookup (kp.1 ++ "[" ++ toString lr.2 ++ "]") with
    | none => rfl
    | some v => simp [hne]
  · intro heq
    show (match e.lookup (kp.1 ++ "[" ++ toString lr.2 ++ "]") with
      | none => none
      | some v =>
        if kp.1 = "sigma2" then (if v < 0 then none else some (Real.sqrt (v : ℝ)))
        else some ((v : ℚ) : ℝ)) = _
    cases e.lookup (kp.1 ++ "[" ++ toString lr.2 ++ "]") with
    | none => rfl
    | some v => simp [heq]

theorem c4_witness :
    ∃ rows,
      build_3_regimes_summary_table
        [("const[0]", mkRat (-1) 100), ("const[1]", mkRat 3 100), ("const[2]", mkRat 1 1000),
         ("sigma2[1]", mkRat 1 25)]
        [("const[1]", mkRat 21 10)] [("const[1]", mkRat 1 20)]
        [("Bull", 1), ("Bear", 0), ("Chop", 2)] = .ok rows
      ∧ (∀ r ∈ rows, ∃ lbl reg kp,
          (lbl, reg) ∈ ([("Bull", 1), ("Bear", 0), ("Chop", 2)] : List (String × ℤ))
          ∧ kp ∈ param_keys
          ∧ r.regime = lbl ∧ r.parameter = kp.2
          ∧ r.tstat = List.lookup (kp.1 ++ "[" ++ toString reg ++ "]") [("const[1]", mkRat 21 10)]
          ∧ r.pvalue = List.lookup (kp.1 ++ "[" ++ toString reg ++ "]") [("const[1]", mkRat 1 20)]
          ∧ (kp.1 ≠ "sigma2" →
              r.estimate = (List.lookup (kp.1 ++ "[" ++ toString reg ++ "]")
                [("const[0]", mkRat (-1) 100), ("const[1]", mkRat 3 100), ("const[2]", mkRat 1 1000),
                 ("sigma2[1]", mkRat 1 25)]).map (fun v => ((v : ℚ) : ℝ)))
          ∧ (kp.1 = "sigma2" →
              r.estimate = (List.lookup (kp.1 ++ "[" ++ toString reg ++ "]")
                [("const[0]", mkRat (-1) 100), ("const[1]", mkRat 3 100), ("const[2]", mkRat 1 1000),
                 ("sigma2[1]", mkRat 1 25)]).bind
                  (fun v => if v < 0 then none else some (Real.sqrt (v : ℝ)))))
      ∧ (rows.get? 3).map SummaryRow.estimate = some (some ((1 : ℝ) / 5)) := by
  have hsq : Real.sqrt ((mkRat 1 25 : ℚ) : ℝ) = 1 / 5 := by
    rw [show ((mkRat 1 25 : ℚ) : ℝ) = (1 / 5 : ℝ) ^ 2 by
      rw [Rat.mkRat_eq_divInt]; push_cast [Rat.divInt_eq_div]; norm_num]
    rw [Real.sqrt_sq (by norm_num)]
  refine ⟨_, rfl, table_rows_spec _ _ _ _ _ rfl, ?_⟩
  rw [← hsq]
  rfl

theorem detectCell_eq_spec (t g : Option ℤ) : detectCell t g = classifyCellSpec t g := by
  unfold detectCell maskCell classifyCellSpec
  split_ifs <;> simp_all

/-- C3: with one ground-truth value per row, the classification matrix has
the same shape as the prediction matrix (same row count, each row the same
length), and every cell carries the code of the spec's four-case table,
unset for any other combination. -/
theorem detect_tsm_classifications_spec (target : List (List (Option ℤ)))
    (gt : List (Option ℤ)) (h : gt.length = target.length) :
    (detect_tsm_classifications target gt).length = target.length
    ∧ (∀ i, ((detect_tsm_classifications target gt).get? i).map List.length =
        (target.get? i).map List.length)
    ∧ detect_tsm_classifications target gt =
        List.zipWith (fun row g => row.map (fun t => classifyCellSpec t g)) target gt := by
  refine ⟨?_, ?_, ?_⟩
  · rw [detect_tsm_classifications, List.length_zipWith, h, min_self]
  · intro i
    induction target generalizing gt i with
    | nil => cases gt <;> simp [detect_tsm_classifications]
    | cons r rs ih =>
      cases gt with
      | nil => simp at h
      | cons g gs =>
        cases i with
        | zero => simp [detect_tsm_classifications]
        | succ n =>
          have h' : gs.length = rs.length := by simpa using h
          simpa [detect_tsm_classifications] using ih gs h' n
  · have hfun : (fun (row : List (Option ℤ)) (g : Option ℤ) =>
        row.map (fun t => detectCell t g)) =
        (fun row g => row.map (fun t => classifyCellSpec t g)) := by
      funext row g
      simp [detectCell_eq_spec]
    rw [detect_tsm_classifications, hfun]

theorem c3_witness :
    ((detect_tsm_classifications [[some 1], [some (-1)], [some 1], [some (-1)]]
        [some 1, some 1, some (-1), some (-1)]).length = 4
      ∧ (∀ i, ((detect_tsm_classifications [[some 1], [some (-1)], [some 1], [some (-1)]]
          [some 1, some 1, some (-1), some (-1)]).get? i).map List.length =
          (([[some 1], [some (-1)], [some 1], [some (-1)]] :
            List (List (Option ℤ))).get? i).map List.length)
      ∧ detect_tsm_classifications [[some 1], [some (-1)], [some 1], [some (-1)]]
          [some 1, some 1, some (-1), some (-1)] =
          List.zipWith (fun row g => row.map (fun t => classifyCellSpec t g))
            [[some 1], [some (-1)], [some 1], [some (-1)]]
            [some 1, some 1, some (-1), some (-1)])
    ∧ detect_tsm_classifications [[some 1], [some (-1)], [some 1], [some (-1)]]
        [some 1, some 1, some (-1), some (-1)] =
        [[some 1], [some 4], [some 3], [some 2]] :=
  ⟨detect_tsm_classifications_spec _ _ (by decide), by decide⟩
